import Mathlib

/-!
A shallow embedding of src/remote.py (the TerminatorRemote plugin): the
RemoteSession classifier family (SSH and container variants), the process
scanner, and the clone orchestrator, together with models of the pieces of
the Python standard library the source calls (os.path.basename, str.split,
getopt.getopt, argparse.parse_known_args).  Python exceptions are modelled
by an explicit error type: ordinary Exception values (caught by the
`except Exception` blocks of the source) are distinguished from SystemExit
(raised by sys.exit inside the argparse error path, and not caught by
`except Exception`).
-/

deriving instance DecidableEq for Except

namespace TRemote

/-- A Python string, modelled as its list of characters. -/
abbrev Tok := List Char

/-- Turn a Lean string literal into a token. -/
def tk (s : String) : Tok := s.data

/-- Python exceptions, at the granularity the source needs: `exc` stands for
any ordinary Exception (GetoptError, ValueError, IndexError, the psutil
errors, ...), which an `except Exception` block catches; `systemExit` stands
for SystemExit as raised by sys.exit, which `except Exception` does not
catch. -/
inductive PyErr where
  | exc
  | systemExit
  deriving DecidableEq

/-- Model of Python str.split with a one-character separator. -/
def pysplitChar (sep : Char) : Tok → List Tok
  | [] => [[]]
  | c :: cs =>
    if c = sep then [] :: pysplitChar sep cs
    else
      match pysplitChar sep cs with
      | [] => [[c]]
      | h :: t => (c :: h) :: t

/-- Model of os.path.basename: the part of the path after the last slash. -/
def pybasename (p : Tok) : Tok := (pysplitChar '/' p).getLastD []

/-- Model of the Python expression " ".join(xs). -/
def pyJoinSpace (l : List Tok) : Tok := List.intercalate [' '] l

/-- os.linesep: the platform line terminator (a newline on POSIX). -/
def linesep : Tok := ['\n']

/-- A read-only snapshot of a live OS process, as seen through the psutil
accessors the source calls: proc.name(), proc.exe() (the empty string when
unknown) and proc.cmdline(). -/
structure Proc where
  name : Tok
  exe : Tok
  cmdline : List Tok
  deriving DecidableEq

/-- RemoteSession.matches_by_name: the shared baseline matching rule.  The
Python truthiness guards `if proc.exe():` and `if proc.cmdline():` become
nonemptiness tests; the element proc.cmdline()[0] is only read under its
guard. -/
def matches_by_name (exe : Tok) (p : Proc) : Bool :=
  if exe = p.name then true
  else if p.exe ≠ [] ∧ exe = pybasename p.exe then true
  else if p.cmdline ≠ [] ∧ exe = p.cmdline.headD [] then true
  else false

/-- Model of getopt.short_has_arg: scan the short-option string for the first
occurrence of the option character (a colon never matches); error when the
option is not recognized, otherwise report whether a colon follows it. -/
def short_has_arg (opt : Char) : List Char → Except PyErr Bool
  | [] => .error .exc
  | c :: rest =>
    if opt = c ∧ c ≠ ':' then .ok (decide (rest.head? = some ':'))
    else short_has_arg opt rest

/-- Model of getopt.do_shorts: consume the option characters of one short
option token; an option that takes an argument eats the rest of the token,
or the next argument token when the rest is empty (error when no argument
token is left either). -/
def do_shorts (opts : List (Tok × Tok)) (optstring : Tok) (shortopts : List Char)
    (args : List Tok) : Except PyErr (List (Tok × Tok) × List Tok) :=
  match optstring with
  | [] => .ok (opts, args)
  | opt :: rest =>
    match short_has_arg opt shortopts with
    | .error e => .error e
    | .ok true =>
      match rest with
      | [] =>
        match args with
        | [] => .error .exc
        | a :: args2 => .ok (opts ++ [(['-', opt], a)], args2)
      | _ => .ok (opts ++ [(['-', opt], rest)], args)
    | .ok false => do_shorts (opts ++ [(['-', opt], [])]) rest shortopts args

/-- Model of the main loop of getopt.getopt with no long options: stop at the
first token that is not option-like or at a bare dash; a bare double dash
ends option processing; any other token starting with a double dash goes to
do_longs, which always raises GetoptError when the long-option table is
empty.  The loop consumes at least one argument token per iteration, so fuel
larger than the argument count is never exhausted. -/
def getopt_go (fuel : Nat) (opts : List (Tok × Tok)) (args : List Tok)
    (shortopts : List Char) : Except PyErr (List (Tok × Tok) × List Tok) :=
  match fuel with
  | 0 => .error .exc
  | fuel + 1 =>
    match args with
    | [] => .ok (opts, [])
    | a :: rest =>
      if a.head? = some '-' ∧ a ≠ ['-'] then
        if a = ['-', '-'] then .ok (opts, rest)
        else if a.take 2 = ['-', '-'] then .error .exc
        else
          match do_shorts opts (a.drop 1) shortopts rest with
          | .error e => .error e
          | .ok (opts2, args2) => getopt_go fuel opts2 args2 shortopts
      else .ok (opts, a :: rest)

/-- Model of getopt.getopt(args, shortopts) with no long options. -/
def pygetopt (args : List Tok) (shortopts : List Char) :
    Except PyErr (List (Tok × Tok) × List Tok) :=
  getopt_go (args.length + 1) [] args shortopts

/-- The short-option string SSHSession.GetHost passes to getopt. -/
def sshShortOpts : List Char :=
  tk ("1246ab:c:e:fgi:kl:m:no:p:qstvxAB:CD:E:F:GI:J:KL:MNO:P:Q:R:S:TVw:W:XYy")

/-- The inner extractHost helper of SSHSession.GetHost: when the target token
contains an at-sign, Python returns target.split(at)[1], i.e. the SECOND
field of the split, which is the part between the first at-sign and the
second one (or the end of the token). -/
def ssh_extract_at (target : Tok) : Tok :=
  if '@' ∈ target then (pysplitChar '@' target).getD 1 [] else target

/-- SSHSession.GetHost: getopt over the command line after the program name;
the first remaining positional argument is the target.  GetoptError and the
IndexError of reading the first positional are caught by the
`except Exception` block and give none. -/
def sshGetHost (cmdline : List Tok) : Option Tok :=
  match pygetopt (cmdline.drop 1) sshShortOpts with
  | .error _ => none
  | .ok (_, []) => none
  | .ok (_, t :: _) => some (ssh_extract_at t)

/-- Modelled from the spec words only (for comparison with the code): the
host is everything after the FIRST at-sign of the target token. -/
def specAfterFirstAt (t : Tok) : Tok := (t.dropWhile (fun c => c != '@')).drop 1

/-- ContainerSession._get_command: the first command-line token that is one
of run, exec, attach. -/
def container_get_command (p : Proc) : Option Tok :=
  p.cmdline.find? (fun a => a == tk ("run") || a == tk ("exec") || a == tk ("attach"))

/-- ContainerSession._get_host_run: find the name flag and return the
following token; ValueError (flag absent) and IndexError (nothing follows
it) are caught inside the helper and give none. -/
def container_get_host_run (p : Proc) : Option Tok :=
  match p.cmdline.findIdx? (fun a => a == tk ("--name")) with
  | none => none
  | some i => p.cmdline[i + 1]?

/-- One argparse option: its option strings and whether it consumes a
value token. -/
structure ArgSpec where
  names : List Tok
  takesValue : Bool

/-- The option table of the argparse parse built in _get_host_exec. -/
def execSpecs : List ArgSpec := [
  ⟨[tk ("-d"), tk ("--detach")], false⟩,
  ⟨[tk ("--detach-keys")], true⟩,
  ⟨[tk ("-e"), tk ("--env")], true⟩,
  ⟨[tk ("--env-file")], true⟩,
  ⟨[tk ("-i"), tk ("--interactive")], false⟩,
  ⟨[tk ("-l"), tk ("--latest")], false⟩,
  ⟨[tk ("--privileged")], true⟩,
  ⟨[tk ("--preserve-fds")], true⟩,
  ⟨[tk ("-t"), tk ("--tty")], false⟩,
  ⟨[tk ("-u"), tk ("--user")], true⟩,
  ⟨[tk ("-w"), tk ("--workdir")], true⟩]

/-- The option table of the argparse parse built in _get_host_attach. -/
def attachSpecs : List ArgSpec := [
  ⟨[tk ("--detach-keys")], true⟩,
  ⟨[tk ("-l"), tk ("--latest")], false⟩,
  ⟨[tk ("--no-stdin")], false⟩,
  ⟨[tk ("--sig-proxy")], false⟩]

/-- A token argparse treats as option-like: it starts with a dash and is not
a bare dash.  (The argparse special cases for negative numbers and for the
bare double-dash separator are not modelled; no theorem exercises them.) -/
def isOptLike (t : Tok) : Bool := decide (t.head? = some '-' ∧ t ≠ ['-'])

/-- Model of argparse parse_known_args for the two parsers the source builds:
one required positional (container), one optional positional (command),
known options matched by exact option string (long-option abbreviation and
the equals-sign form are not modelled; no theorem exercises them), unmatched
option-like tokens and extra positionals collected as unknown.  A known
option that needs a value with no token left, or a missing required
container positional, makes argparse call its error method, which calls
sys.exit: SystemExit. -/
def parse_known (specs : List ArgSpec) : List Tok → Option Tok → Option Tok →
    List Tok → Except PyErr (Tok × Option Tok × List Tok)
  | [], none, _, _ => .error .systemExit
  | [], some c, cmd, unk => .ok (c, cmd, unk)
  | t :: rest, c, cmd, unk =>
    if isOptLike t then
      match specs.find? (fun sp => sp.names.contains t) with
      | some sp =>
        if sp.takesValue then
          match rest with
          | [] => .error .systemExit
          | _ :: rest2 => parse_known specs rest2 c cmd unk
        else parse_known specs rest c cmd unk
      | none => parse_known specs rest c cmd (unk ++ [t])
    else
      match c with
      | none => parse_known specs rest (some t) cmd unk
      | some _ =>
        match cmd with
        | none => parse_known specs rest c (some t) unk
        | some _ => parse_known specs rest c cmd (unk ++ [t])

/-- ContainerSession._get_host_exec: the index of the exec token (ValueError,
catchable, when absent), then argparse over the following tokens; the
container positional is the result. -/
def container_get_host_exec (p : Proc) : Except PyErr Tok :=
  match p.cmdline.findIdx? (fun a => a == tk ("exec")) with
  | none => .error .exc
  | some i =>
    (parse_known execSpecs (p.cmdline.drop (i + 1)) none none []).map (fun r => r.1)

/-- ContainerSession._get_host_attach: like the exec path, with the attach
option table. -/
def container_get_host_attach (p : Proc) : Except PyErr Tok :=
  match p.cmdline.findIdx? (fun a => a == tk ("attach")) with
  | none => .error .exc
  | some i =>
    (parse_known attachSpecs (p.cmdline.drop (i + 1)) none none []).map (fun r => r.1)

/-- ContainerSession.GetHost: dispatch on the detected subcommand; the
`except Exception` block turns ordinary exceptions into none but lets
SystemExit through to the caller. -/
def containerGetHost (p : Proc) : Except PyErr (Option Tok) :=
  match container_get_command p with
  | none => .ok none
  | some cmd =>
    let r : Except PyErr (Option Tok) :=
      if cmd = tk ("run") then .ok (container_get_host_run p)
      else if cmd = tk ("exec") then (container_get_host_exec p).map some
      else if cmd = tk ("attach") then (container_get_host_attach p).map some
      else .ok none
    match r with
    | .ok v => .ok v
    | .error .exc => .ok none
    | .error .systemExit => .error .systemExit

/-- ContainerSession.Clone: exec and attach sessions are cloned by rerunning
the original command line; a run session is entered through
`exe exec -it host sh` when GetHost recovers a container name, otherwise the
original command line is rerun.  The Python guard `if not host:` is a
truthiness test: it takes the no-host branch both when GetHost returns None
and when it returns the empty string. -/
def containerClone (exe : Tok) (p : Proc) : Except PyErr (List Tok) :=
  match container_get_command p with
  | none => .ok p.cmdline
  | some cmd =>
    if cmd = tk ("exec") ∨ cmd = tk ("attach") then .ok p.cmdline
    else
      match containerGetHost p with
      | .error e => .error e
      | .ok none => .ok p.cmdline
      | .ok (some host) =>
        if host = [] then .ok p.cmdline
        else .ok [exe, tk ("exec"), tk ("-it"), host, tk ("sh")]

/-- The closed set of registered remote-session kinds: SSH (with executable
name ssh) and the container variant carrying its executable name. -/
inductive RKind where
  | ssh
  | container (exe : Tok)
  deriving DecidableEq

/-- IsType of each variant: SSH matches by name alone; a container variant
additionally requires an interactive subcommand on the command line. -/
def isType : RKind → Proc → Bool
  | .ssh, p => matches_by_name (tk ("ssh")) p
  | .container exe, p => matches_by_name exe p && (container_get_command p).isSome

/-- Remote.remote_session_types, in registration order. -/
def remote_session_types : List RKind :=
  [.ssh, .container (tk ("docker")), .container (tk ("podman"))]

/-- The scan loop of Remote._has_remote_session over the enumerated
descendants: the first child matching any registered variant, the variants
tried in registration order. -/
def scan_children : List Proc → Option (Proc × RKind)
  | [] => none
  | c :: cs =>
    match remote_session_types.find? (fun rt => isType rt c) with
    | some rt => some (c, rt)
    | none => scan_children cs

/-- Remote._has_remote_session: the psutil process-table query is an input
(ok with the descendant list, or error when the process vanished,
psutil.NoSuchProcess).  The source wraps the query in no try block, so a
query error propagates to the caller. -/
def has_remote_session (query : Except PyErr (List Proc)) :
    Except PyErr (Option (Proc × RKind)) :=
  match query with
  | .error e => .error e
  | .ok children => .ok (scan_children children)

/-- An opaque terminal-pane identity (the uuid of a Terminator terminal). -/
abbrev UUID := Nat

/-- Observable actions of the orchestrator.  Debug logging is not modelled;
error logging, command injection (vte.feed_child), host-settings application
and the split signal are.  pyraise marks a Python exception escaping a
callback. -/
inductive Effect where
  | err (msg : String)
  | feedChild (pane : UUID) (text : Tok)
  | applyHostSettings (pane : UUID)
  | emitSplit (signal : Tok) (pane : UUID)
  | pyraise (e : PyErr)
  deriving DecidableEq

/-- The mutable fields of the Remote plugin instance used by the clone state
machine.  poll_start models the start_time value bound into the scheduled
polling callback; it is part of the pending-clone state. -/
structure RemoteState where
  timeout_id : Option Nat
  peers : List UUID
  remote_proc : Option Proc
  remote_type : Option RKind
  poll_start : Option ℚ
  deriving DecidableEq

/-- Python truthiness of the timeout_id field (None and 0 are falsy; GLib
source ids are positive). -/
def truthyId : Option Nat → Bool
  | none => false
  | some n => n != 0

/-- The Clone dispatch used by Remote._spawn_remote_session. -/
def cloneCmd : RKind → Proc → Except PyErr (List Tok)
  | .ssh, p => .ok p.cmdline
  | .container exe, p => containerClone exe p

/-- Remote._spawn_remote_session: join the clone command with single spaces,
append os.linesep, feed the line to the vte of the target pane, then apply
host settings; a missing pending target or a raising Clone would be a Python
error escaping the callback. -/
def spawn_remote_session (st : RemoteState) (pane : UUID) : List Effect :=
  match st.remote_type, st.remote_proc with
  | some rt, some p =>
    match cloneCmd rt p with
    | .error e => [.pyraise e]
    | .ok remote_cmd =>
      [.feedChild pane (pyJoinSpace remote_cmd ++ linesep), .applyHostSettings pane]
  | _, _ => [.pyraise .exc]

/-- Remote._poll_new_terminals, one tick: inputs are the current pane set
(in iteration order), the start_time bound at scheduling time and the
current clock value; outputs are the new plugin state, the emitted effects,
and the Boolean the GLib callback returns (true reschedules the tick). -/
def poll_new_terminals (st : RemoteState) (currPeers : List UUID)
    (start_time now : ℚ) : RemoteState × List Effect × Bool :=
  if currPeers.length ≠ st.peers.length then
    match currPeers.filter (fun x => decide (x ∉ st.peers)) with
    | [] => (st, [.err ("container removed children")], false)
    | u :: us =>
      let errs := if (u :: us).length ≠ 1 then
        [Effect.err ("container has more than one child")] else []
      ({ st with timeout_id := none }, errs ++ spawn_remote_session st u, false)
  else
    if |now - start_time| > 1 / 10 then
      ({ st with timeout_id := none }, [.err ("timeout polling for terminals")], false)
    else (st, [], true)

/-- Remote._menu_item_activated: inputs are the scanner result for the pane
the menu was opened on (none models a lost session), the current pane set,
the clock, the fresh GLib source id, the split signal and the pane itself. -/
def menu_item_activated (st : RemoteState) (scan : Option (Proc × RKind))
    (currTerms : List UUID) (now : ℚ) (freshId : Nat) (signal : Tok)
    (pane : UUID) : RemoteState × List Effect :=
  match scan with
  | none => (st, [.err ("lost remote session seen on context menu")])
  | some (child, rtype) =>
    if truthyId st.timeout_id = false then
      ({ timeout_id := some freshId, peers := currTerms,
         remote_proc := some child, remote_type := some rtype,
         poll_start := some now },
       [.applyHostSettings pane, .emitSplit signal pane])
    else (st, [.err ("already waiting for a terminal")])

/-! ### Helper lemmas about the Python string split -/

theorem pysplit_no_sep (sep : Char) (a : Tok) (h : sep ∉ a) :
    pysplitChar sep a = [a] := by
  induction a with
  | nil => rfl
  | cons c cs ih =>
    simp only [List.mem_cons, not_or] at h
    have hc : ¬ c = sep := fun hh => h.1 hh.symm
    simp [pysplitChar, hc, ih h.2]

theorem pysplit_before_sep (sep : Char) (a b : Tok) (h : sep ∉ a) :
    pysplitChar sep (a ++ sep :: b) = a :: pysplitChar sep b := by
  induction a with
  | nil => simp [pysplitChar]
  | cons c cs ih =>
    simp only [List.mem_cons, not_or] at h
    have hc : ¬ c = sep := fun hh => h.1 hh.symm
    simp [pysplitChar, hc, ih h.2]

/-- On a token of the shape pre ++ at :: (seg ++ suf), with pre and seg free
of at-signs and suf empty or starting with an at-sign, the inner extractHost
of SSHSession.GetHost returns seg: the field between the first and the
second at-sign. -/
theorem ssh_extract_between (pre seg suf : Tok) (h1 : '@' ∉ pre) (h2 : '@' ∉ seg)
    (h3 : suf = [] ∨ suf.head? = some '@') :
    ssh_extract_at (pre ++ '@' :: (seg ++ suf)) = seg := by
  have hmem : '@' ∈ pre ++ '@' :: (seg ++ suf) :=
    List.mem_append_right _ (List.mem_cons_self _ _)
  unfold ssh_extract_at
  rw [if_pos hmem, pysplit_before_sep _ _ _ h1]
  rcases h3 with h3 | h3
  · subst h3
    rw [List.append_nil, pysplit_no_sep _ _ h2]
    rfl
  · cases suf with
    | nil => simp at h3
    | cons x s =>
      have hx : x = '@' := by simpa using h3
      subst hx
      rw [pysplit_before_sep _ _ _ h2]
      rfl

/-! ### Claim C1 -/

/-- Claim C1, counterexample to the claim as stated: on the command line
`ssh a@b@c` the code returns the field between the two at-signs (b), not
everything after the first at-sign (b@c). -/
theorem ssh_getHost_not_after_first_at :
    sshGetHost [tk ("ssh"), tk ("a@b@c")] = some (tk ("b")) ∧
    sshGetHost [tk ("ssh"), tk ("a@b@c")] ≠ some (specAfterFirstAt (tk ("a@b@c"))) := by
  exact ⟨by decide, by decide⟩

/-- Claim C1, amended: for every SSH command line, after getopt parsing of
the arguments past the program name with the ssh flag string: a parse
failure gives none; an empty positional list gives none; otherwise, with t
the first positional: if t has no at-sign the host is t itself, and if t
decomposes as pre ++ at :: (seg ++ suf), with pre and seg free of at-signs
and suf empty or starting with an at-sign, the host is seg — the field
between the first and second at-sign (everything after the first at-sign
exactly when t contains a single one). -/
theorem ssh_getHost_spec (cmdline : List Tok) :
    (∀ e, pygetopt (cmdline.drop 1) sshShortOpts = .error e →
      sshGetHost cmdline = none) ∧
    (∀ opts, pygetopt (cmdline.drop 1) sshShortOpts = .ok (opts, []) →
      sshGetHost cmdline = none) ∧
    (∀ opts t rest, pygetopt (cmdline.drop 1) sshShortOpts = .ok (opts, t :: rest) →
      ('@' ∉ t → sshGetHost cmdline = some t) ∧
      (∀ pre seg suf, t = pre ++ '@' :: (seg ++ suf) → '@' ∉ pre → '@' ∉ seg →
        (suf = [] ∨ suf.head? = some '@') → sshGetHost cmdline = some seg)) := by
  refine ⟨fun e h => ?_, fun opts h => ?_,
    fun opts t rest h => ⟨fun hat => ?_, fun pre seg suf ht h1 h2 h3 => ?_⟩⟩
  · unfold sshGetHost; rw [h]
  · unfold sshGetHost; rw [h]
  · unfold sshGetHost; rw [h]; simp [ssh_extract_at, hat]
  · subst ht
    unfold sshGetHost
    rw [h]
    show some (ssh_extract_at (pre ++ '@' :: (seg ++ suf))) = some seg
    rw [ssh_extract_between pre seg suf h1 h2 h3]

/-- Claim C1, witness: on `ssh -p 22 u@h@x` the option parse succeeds, the
first positional is u@h@x, and the host is h. -/
theorem ssh_getHost_spec_witness :
    pygetopt ([tk ("-p"), tk ("22"), tk ("u@h@x")]) sshShortOpts =
      .ok ([(tk ("-p"), tk ("22"))], [tk ("u@h@x")]) ∧
    sshGetHost [tk ("ssh"), tk ("-p"), tk ("22"), tk ("u@h@x")] = some (tk ("h")) :=
  ⟨by decide,
    ((ssh_getHost_spec [tk ("ssh"), tk ("-p"), tk ("22"), tk ("u@h@x")]).2.2
        [(tk ("-p"), tk ("22"))] (tk ("u@h@x")) [] (by decide)).2
      (tk ("u")) (tk ("h")) (tk ("@x")) (by decide) (by decide) (by decide)
      (Or.inr (by decide))⟩

/-! ### Claim C2 -/

/-- Claim C2: evaluation of ContainerSession.GetHost at the failing inputs.
On `podman attach -l` (attach to the latest container: no positional) and on
`docker exec` (no container argument), argparse reports a missing required
positional through its error method, which calls sys.exit; the resulting
SystemExit is not an Exception, so the `except Exception` block of GetHost
does not catch it and GetHost raises instead of returning none. -/
theorem container_getHost_raises_systemExit :
    containerGetHost ⟨tk ("podman"), tk ("/usr/bin/podman"),
        [tk ("podman"), tk ("attach"), tk ("-l")]⟩ = .error .systemExit ∧
    containerGetHost ⟨tk ("docker"), [], [tk ("docker"), tk ("exec")]⟩ =
      .error .systemExit := by
  exact ⟨rfl, rfl⟩

/-! ### Claim C3 -/

/-- No child of the list matches any registered variant: the scan loop of
Remote._has_remote_session returns none. -/
theorem scan_children_none (children : List Proc)
    (h : ∀ c ∈ children, ∀ rt ∈ remote_session_types, isType rt c = false) :
    scan_children children = none := by
  induction children with
  | nil => rfl
  | cons c cs ih =>
    have hfind : remote_session_types.find? (fun rt => isType rt c) = none := by
      rw [List.find?_eq_none]
      intro rt hrt
      simp [h c (List.mem_cons_self c cs) rt hrt]
    have hstep : scan_children (c :: cs) = scan_children cs := by
      simp only [scan_children, hfind]
    rw [hstep]
    exact ih (fun c2 hc2 rt hrt => h c2 (List.mem_cons_of_mem _ hc2) rt hrt)

/-- Claim C3, counterexample to the claim as stated: when the process-table
query fails (process vanished), _has_remote_session does not return none. -/
theorem has_remote_session_not_none_on_failure :
    has_remote_session (.error .exc) ≠ .ok none := by
  decide

/-- Claim C3, amended: _has_remote_session returns none when no descendant
matches any registered variant, but when the process-table query itself
fails (the process vanished) the exception propagates to the caller — the
function body contains no exception handler. -/
theorem has_remote_session_spec :
    (∀ e, has_remote_session (.error e) = .error e) ∧
    (∀ children : List Proc,
      (∀ c ∈ children, ∀ rt ∈ remote_session_types, isType rt c = false) →
      has_remote_session (.ok children) = .ok none) := by
  constructor
  · intro e; rfl
  · intro children h
    show Except.ok (scan_children children) = Except.ok none
    rw [scan_children_none children h]

/-- Claim C3, witness: a shell-only descendant list yields no match, and a
failed query propagates the error. -/
theorem has_remote_session_spec_witness :
    has_remote_session (.ok [⟨tk ("bash"), tk ("/usr/bin/bash"), [tk ("bash")]⟩]) =
      .ok none ∧
    has_remote_session (.error .exc) = .error .exc :=
  ⟨has_remote_session_spec.2 _ (by decide), has_remote_session_spec.1 .exc⟩

/-! ### Claim C4 -/

/-- Claim C4: for every process snapshot and nonempty configured executable
name (the registered names are ssh, docker, podman), matches_by_name is true
exactly when the reported name, the basename of the executable path, or the
first command-line token equals the name — case-sensitive exact string
comparison. -/
theorem matches_by_name_spec (exe : Tok) (p : Proc) (hne : exe ≠ []) :
    matches_by_name exe p = true ↔
      (p.name = exe ∨ pybasename p.exe = exe ∨ p.cmdline.head? = some exe) := by
  unfold matches_by_name
  by_cases h1 : exe = p.name
  · simp [h1, eq_comm]
  · rw [if_neg h1]
    by_cases h2 : p.exe ≠ [] ∧ exe = pybasename p.exe
    · rw [if_pos h2]
      simp only [true_iff]
      exact Or.inr (Or.inl h2.2.symm)
    · rw [if_neg h2]
      by_cases h3 : p.cmdline ≠ [] ∧ exe = p.cmdline.headD []
      · rw [if_pos h3]
        simp only [true_iff]
        refine Or.inr (Or.inr ?_)
        obtain ⟨hne2, heq⟩ := h3
        cases hcl : p.cmdline with
        | nil => exact absurd hcl hne2
        | cons c cl =>
          rw [hcl] at heq
          simp only [List.headD_cons] at heq
          simp [hcl, heq]
      · rw [if_neg h3]
        push_neg at h2 h3
        constructor
        · intro hm
          exact absurd hm (by decide)
        · rintro (ha | hb | hc)
          · exact absurd ha.symm h1
          · by_cases hx : p.exe = []
            · rw [hx] at hb
              exact absurd hb.symm hne
            · exact absurd hb.symm (h2 hx)
          · cases hcl : p.cmdline with
            | nil =>
              rw [hcl] at hc
              exact Option.noConfusion hc
            | cons c cl =>
              rw [hcl] at hc
              have hce : c = exe := by simpa using hc
              have h3e := h3 (by rw [hcl]; simp)
              rw [hcl] at h3e
              simp only [List.headD_cons] at h3e
              exact absurd hce.symm h3e

/-- Claim C4, witness: the name ssh is nonempty, and a process whose
executable path has basename ssh matches while its reported name does not. -/
theorem matches_by_name_spec_witness :
    tk ("ssh") ≠ ([] : Tok) ∧
    (matches_by_name (tk ("ssh")) ⟨tk ("zsh"), tk ("/usr/bin/ssh"), []⟩ = true ↔
      (tk ("zsh") = tk ("ssh") ∨ pybasename (tk ("/usr/bin/ssh")) = tk ("ssh") ∨
        ([] : List Tok).head? = some (tk ("ssh")))) ∧
    matches_by_name (tk ("ssh")) ⟨tk ("zsh"), tk ("/usr/bin/ssh"), []⟩ = true :=
  ⟨by decide, matches_by_name_spec _ _ (by decide), by decide⟩

/-! ### Claim C5 -/

/-- Unfolding of ContainerSession.Clone under a detected subcommand. -/
theorem containerClone_some (exe : Tok) (p : Proc) (cmd : Tok)
    (hcmd : container_get_command p = some cmd) :
    containerClone exe p =
      if cmd = tk ("exec") ∨ cmd = tk ("attach") then .ok p.cmdline
      else
        match containerGetHost p with
        | .error e => .error e
        | .ok none => .ok p.cmdline
        | .ok (some host) =>
          if host = [] then .ok p.cmdline
          else .ok [exe, tk ("exec"), tk ("-it"), host, tk ("sh")] := by
  unfold containerClone
  rw [hcmd]

/-- Claim C5: for every container process with a detected subcommand, Clone
returns the original command line when the subcommand is exec or attach;
when it is run, Clone returns `exe exec -it X sh` when GetHost recovers a
truthy (nonempty) name X, and the original command line when no name is
recovered — GetHost returning None or the falsy empty string (run with an
empty value after the name flag), per the Python guard `if not host:`. -/
theorem container_clone_spec (exe : Tok) (p : Proc) (cmd : Tok)
    (hcmd : container_get_command p = some cmd) :
    ((cmd = tk ("exec") ∨ cmd = tk ("attach")) → containerClone exe p = .ok p.cmdline) ∧
    (cmd = tk ("run") →
      (∀ X, containerGetHost p = .ok (some X) → X ≠ [] →
        containerClone exe p = .ok [exe, tk ("exec"), tk ("-it"), X, tk ("sh")]) ∧
      (containerGetHost p = .ok none → containerClone exe p = .ok p.cmdline) ∧
      (containerGetHost p = .ok (some []) → containerClone exe p = .ok p.cmdline)) := by
  constructor
  · intro hor
    rw [containerClone_some exe p cmd hcmd, if_pos hor]
  · intro hrun
    subst hrun
    have hno : ¬ (tk ("run") = tk ("exec") ∨ tk ("run") = tk ("attach")) := by decide
    refine ⟨fun X hX hXne => ?_, fun hnone => ?_, fun hempty => ?_⟩
    · rw [containerClone_some exe p _ hcmd, if_neg hno, hX]
      show (if X = [] then Except.ok p.cmdline
        else Except.ok [exe, tk ("exec"), tk ("-it"), X, tk ("sh")]) = _
      rw [if_neg hXne]
    · rw [containerClone_some exe p _ hcmd, if_neg hno, hnone]
    · rw [containerClone_some exe p _ hcmd, if_neg hno, hempty]
      show (if ([] : Tok) = [] then Except.ok p.cmdline
        else Except.ok [exe, tk ("exec"), tk ("-it"), [], tk ("sh")]) = Except.ok p.cmdline
      rw [if_pos rfl]

/-- Claim C5, witness: `docker run --name box img` has subcommand run, host
box, and is cloned as `docker exec -it box sh`; `docker run --name '' img`
recovers only the falsy empty name and is cloned as the original command
line. -/
theorem container_clone_spec_witness :
    container_get_command
        ⟨tk ("docker"), [], [tk ("docker"), tk ("run"), tk ("--name"), tk ("box"), tk ("img")]⟩ =
      some (tk ("run")) ∧
    containerGetHost
        ⟨tk ("docker"), [], [tk ("docker"), tk ("run"), tk ("--name"), tk ("box"), tk ("img")]⟩ =
      .ok (some (tk ("box"))) ∧
    containerClone (tk ("docker"))
        ⟨tk ("docker"), [], [tk ("docker"), tk ("run"), tk ("--name"), tk ("box"), tk ("img")]⟩ =
      .ok [tk ("docker"), tk ("exec"), tk ("-it"), tk ("box"), tk ("sh")] ∧
    containerGetHost
        ⟨tk ("docker"), [], [tk ("docker"), tk ("run"), tk ("--name"), tk (""), tk ("img")]⟩ =
      .ok (some []) ∧
    containerClone (tk ("docker"))
        ⟨tk ("docker"), [], [tk ("docker"), tk ("run"), tk ("--name"), tk (""), tk ("img")]⟩ =
      .ok [tk ("docker"), tk ("run"), tk ("--name"), tk (""), tk ("img")] :=
  ⟨rfl, rfl,
    ((container_clone_spec (tk ("docker"))
        ⟨tk ("docker"), [], [tk ("docker"), tk ("run"), tk ("--name"), tk ("box"), tk ("img")]⟩
        (tk ("run")) (by decide)).2 rfl).1 (tk ("box")) (by decide) (by decide),
    rfl,
    (((container_clone_spec (tk ("docker"))
        ⟨tk ("docker"), [], [tk ("docker"), tk ("run"), tk ("--name"), tk (""), tk ("img")]⟩
        (tk ("run")) (by decide)).2 rfl).2.2 (by decide))⟩

/-! ### Claim C6 -/

/-- Claim C6: while a clone is pending (timeout_id set, hence truthy), any
new clone trigger leaves the whole plugin state unchanged — in particular
the pending remote process and kind, the before peer snapshot, and the
poll start time — and emits no split request. -/
theorem menu_reentrancy_guard (st : RemoteState) (scan : Option (Proc × RKind))
    (currTerms : List UUID) (now : ℚ) (freshId : Nat) (signal : Tok) (pane : UUID)
    (h : truthyId st.timeout_id = true) :
    (menu_item_activated st scan currTerms now freshId signal pane).1 = st ∧
    (∀ s q, Effect.emitSplit s q ∉
      (menu_item_activated st scan currTerms now freshId signal pane).2) := by
  constructor
  · cases scan with
    | none => rfl
    | some pr =>
      obtain ⟨c, r⟩ := pr
      simp [menu_item_activated, h]
  · intro s q
    cases scan with
    | none => simp [menu_item_activated]
    | some pr =>
      obtain ⟨c, r⟩ := pr
      simp [menu_item_activated, h]

/-- Claim C6, witness: with a pending clone (source id 7), a second trigger
on an ssh match leaves the state unchanged. -/
theorem menu_reentrancy_guard_witness :
    truthyId (RemoteState.mk (some 7) [1] none none none).timeout_id = true ∧
    (menu_item_activated (RemoteState.mk (some 7) [1] none none none)
        (some (⟨tk ("ssh"), [], [tk ("ssh"), tk ("h")]⟩, RKind.ssh)) [1, 2] 5 9
        (tk ("split-auto")) 1).1 =
      RemoteState.mk (some 7) [1] none none none :=
  ⟨by decide, (menu_reentrancy_guard _ _ _ _ _ _ _ (by decide)).1⟩

/-! ### Claim C7 -/

/-- Unfolding of Remote._spawn_remote_session under a pending target whose
Clone succeeds. -/
theorem spawn_remote_session_eq (st : RemoteState) (pane : UUID) (rt : RKind)
    (p : Proc) (l : List Tok) (hrt : st.remote_type = some rt)
    (hp : st.remote_proc = some p) (hclone : cloneCmd rt p = .ok l) :
    spawn_remote_session st pane =
      [Effect.feedChild pane (pyJoinSpace l ++ linesep), Effect.applyHostSettings pane] := by
  unfold spawn_remote_session
  rw [hrt, hp]
  show (match cloneCmd rt p with
    | Except.error e => [Effect.pyraise e]
    | Except.ok remote_cmd =>
      [Effect.feedChild pane (pyJoinSpace remote_cmd ++ linesep),
       Effect.applyHostSettings pane]) = _
  rw [hclone]

/-- Claim C7: on a tick where the peer count changed and exactly one new
pane identity u appeared, the orchestrator injects into u exactly the clone
command joined with single spaces followed by the platform line terminator,
applies host settings to u, clears the pending flag, and stops polling. -/
theorem poll_single_new_pane_injects (st : RemoteState) (currPeers : List UUID)
    (start_time now : ℚ) (rt : RKind) (p : Proc) (u : UUID) (l : List Tok)
    (hrt : st.remote_type = some rt) (hp : st.remote_proc = some p)
    (hlen : currPeers.length ≠ st.peers.length)
    (hnew : currPeers.filter (fun x => decide (x ∉ st.peers)) = [u])
    (hclone : cloneCmd rt p = .ok l) :
    poll_new_terminals st currPeers start_time now =
      ({ st with timeout_id := none },
       [Effect.feedChild u (pyJoinSpace l ++ linesep), Effect.applyHostSettings u],
       false) := by
  unfold poll_new_terminals
  rw [if_pos hlen, hnew]
  show ({ st with timeout_id := none },
    (if ([u] : List UUID).length ≠ 1 then
      [Effect.err ("container has more than one child")] else [])
      ++ spawn_remote_session st u, false) = _
  rw [spawn_remote_session_eq st u rt p l hrt hp hclone]
  simp

/-- Claim C7, witness: an awaiting state with pending ssh target `ssh h`, one
new pane 42 — the injected text is the command line joined by spaces plus the
line terminator. -/
theorem poll_single_new_pane_injects_witness :
    ([42] : List UUID).filter (fun x => decide (x ∉ ([] : List UUID))) = [42] ∧
    cloneCmd RKind.ssh ⟨tk ("ssh"), [], [tk ("ssh"), tk ("h")]⟩ =
      .ok [tk ("ssh"), tk ("h")] ∧
    poll_new_terminals
        ⟨some 3, [], some ⟨tk ("ssh"), [], [tk ("ssh"), tk ("h")]⟩, some RKind.ssh, some 0⟩
        [42] 0 0 =
      (⟨none, [], some ⟨tk ("ssh"), [], [tk ("ssh"), tk ("h")]⟩, some RKind.ssh, some 0⟩,
       [Effect.feedChild 42 (pyJoinSpace [tk ("ssh"), tk ("h")] ++ linesep),
        Effect.applyHostSettings 42],
       false) :=
  ⟨by decide, rfl,
    poll_single_new_pane_injects _ _ _ _ _ _ _ _ rfl rfl (by decide) (by decide) rfl⟩

/-! ### Claim C8 -/

/-- Claim C8: on a tick where the peer count is unchanged and the elapsed
time exceeds one tenth of a time-unit, the orchestrator logs the timeout
error, clears the pending flag (returning to Idle, so a new clone may
start), stops polling, and injects nothing. -/
theorem poll_timeout_to_idle (st : RemoteState) (currPeers : List UUID)
    (start_time now : ℚ) (hlen : currPeers.length = st.peers.length)
    (ht : |now - start_time| > 1 / 10) :
    poll_new_terminals st currPeers start_time now =
      ({ st with timeout_id := none },
       [Effect.err ("timeout polling for terminals")], false) ∧
    (∀ q t, Effect.feedChild q t ∉
      (poll_new_terminals st currPeers start_time now).2.1) ∧
    truthyId (poll_new_terminals st currPeers start_time now).1.timeout_id = false := by
  have h1 : ¬ currPeers.length ≠ st.peers.length := by simp [hlen]
  have hmain : poll_new_terminals st currPeers start_time now =
      ({ st with timeout_id := none },
       [Effect.err ("timeout polling for terminals")], false) := by
    unfold poll_new_terminals
    rw [if_neg h1, if_pos ht]
  refine ⟨hmain, ?_, ?_⟩
  · intro q t
    rw [hmain]
    simp
  · rw [hmain]
    rfl

/-- Claim C8, witness: with equal peer counts and elapsed time 1 over start
time 0, the tick times out and clears the pending flag. -/
theorem poll_timeout_to_idle_witness :
    ([] : List UUID).length = (RemoteState.mk (some 3) [] none none (some 0)).peers.length ∧
    |(1 : ℚ) - 0| > 1 / 10 ∧
    poll_new_terminals (RemoteState.mk (some 3) [] none none (some 0)) [] 0 1 =
      (RemoteState.mk none [] none none (some 0),
       [Effect.err ("timeout polling for terminals")], false) :=
  ⟨rfl, by rw [sub_zero, abs_one]; norm_num,
    (poll_timeout_to_idle _ _ _ _ rfl (by rw [sub_zero, abs_one]; norm_num)).1⟩

/-! ### Claim C9 -/

/-- Claim C9: evaluation of _poll_new_terminals at the two abnormal-diff
inputs.  When the peer set shrank (no new identity), the code logs the error
and stops polling but leaves timeout_id set, so the orchestrator does NOT
return to Idle and every later clone trigger is rejected.  When more than
one new identity appeared, the code logs the error and still proceeds with
the first new identity, clearing the flag. -/
theorem poll_decreased_peers_keeps_pending :
    poll_new_terminals ⟨some 3, [1, 2], none, none, some 0⟩ [1] 0 0 =
      (⟨some 3, [1, 2], none, none, some 0⟩,
       [Effect.err ("container removed children")], false) ∧
    (poll_new_terminals ⟨some 3, [1, 2], none, none, some 0⟩ [1] 0 0).1.timeout_id =
      some 3 ∧
    poll_new_terminals
        ⟨some 3, [], some ⟨tk ("ssh"), [], [tk ("ssh"), tk ("h")]⟩, some RKind.ssh, some 0⟩
        [5, 6] 0 0 =
      (⟨none, [], some ⟨tk ("ssh"), [], [tk ("ssh"), tk ("h")]⟩, some RKind.ssh, some 0⟩,
       [Effect.err ("container has more than one child"),
        Effect.feedChild 5 (pyJoinSpace [tk ("ssh"), tk ("h")] ++ linesep),
        Effect.applyHostSettings 5],
       false) := by
  exact ⟨rfl, rfl, rfl⟩

/-! ### Claim C10 -/

/-- Claim C10: matches_by_name is total at its boundary.  With both the
executable path and the command line empty, it degrades to the reported-name
comparison (the guarded branches contribute false rather than an error); and
whenever it is true, the match comes from a present source: the reported
name, a nonempty executable path, or a nonempty command line. -/
theorem matches_by_name_total_spec (exe : Tok) (p : Proc) :
    (p.exe = [] ∧ p.cmdline = [] → matches_by_name exe p = decide (exe = p.name)) ∧
    (matches_by_name exe p = true →
      p.name = exe ∨ (p.exe ≠ [] ∧ pybasename p.exe = exe) ∨
        (p.cmdline ≠ [] ∧ p.cmdline.headD [] = exe)) := by
  constructor
  · rintro ⟨hx, hc⟩
    unfold matches_by_name
    rw [hx, hc]
    by_cases h1 : exe = p.name
    · simp [h1]
    · simp [h1]
  · intro hm
    unfold matches_by_name at hm
    by_cases h1 : exe = p.name
    · exact Or.inl h1.symm
    · rw [if_neg h1] at hm
      by_cases h2 : p.exe ≠ [] ∧ exe = pybasename p.exe
      · exact Or.inr (Or.inl ⟨h2.1, h2.2.symm⟩)
      · rw [if_neg h2] at hm
        by_cases h3 : p.cmdline ≠ [] ∧ exe = p.cmdline.headD []
        · exact Or.inr (Or.inr ⟨h3.1, h3.2.symm⟩)
        · rw [if_neg h3] at hm
          exact absurd hm (by simp)

/-- Claim C10, witness: a process with empty executable path and empty
command line neither raises nor matches a name different from its reported
name. -/
theorem matches_by_name_total_spec_witness :
    (Proc.mk (tk ("bash")) [] []).exe = [] ∧
    matches_by_name (tk ("ssh")) (Proc.mk (tk ("bash")) [] []) =
      decide (tk ("ssh") = (Proc.mk (tk ("bash")) [] []).name) ∧
    matches_by_name (tk ("ssh")) (Proc.mk (tk ("bash")) [] []) = false :=
  ⟨rfl, (matches_by_name_total_spec _ _).1 ⟨rfl, rfl⟩, by decide⟩

end TRemote
